import Mathlib

/-!
Shallow embedding of the dating-app backend (`src/main.py`, `src/schemas.py`).

The document store is modelled as in-memory lists of typed documents, one list
per collection, kept in insertion order (Mongo natural order).  Inserting a
document assigns it a generated identifier and an insertion timestamp; both are
taken from a single strictly increasing counter, which models the store's
"generated unique identifier and an insertion timestamp assigned by the store"
(their string rendering at the HTTP boundary is injective, so identifiers are
kept as naturals in results).  `database.py` (the `create_document` helper) is
not among the sources; its insert/validate contract is modelled from the spec
where noted.  Endpoint handlers are translated one-to-one from `main.py`.
-/

deriving instance DecidableEq for Except

namespace DatingApp

/-- A stored OTP document (collection "otp"): generated `_id`, insertion
timestamp `created_at`, plus the fields inserted by `request_otp`. -/
structure OtpDoc where
  id : Nat
  created_at : Nat
  email : String
  code : String
  deriving DecidableEq

/-- A stored profile document (collection "profile").  `verify_otp` inserts
only `email` and `name`; every other field is absent (`none`) until a partial
update sets it.  Numeric coordinates are only ever stored and copied verbatim,
never computed with, so they are embedded as rationals to keep equality
decidable. -/
structure ProfileDoc where
  id : Nat
  created_at : Nat
  email : String
  name : Option String
  age : Option Int
  gender : Option String
  bio : Option String
  interests : Option (List String)
  photos : Option (List String)
  location_lat : Option Rat
  location_lng : Option Rat
  deriving DecidableEq

/-- A stored swipe document (collection "swipe"). -/
structure SwipeDoc where
  id : Nat
  created_at : Nat
  user_id : String
  target_id : String
  action : String
  deriving DecidableEq

/-- A stored match document (collection "match"). -/
structure MatchDoc where
  id : Nat
  created_at : Nat
  user_a : String
  user_b : String
  deriving DecidableEq

/-- A stored message document (collection "message"). -/
structure MessageDoc where
  id : Nat
  created_at : Nat
  match_id : String
  sender_id : String
  text : String
  deriving DecidableEq

/-- The document store: one list per collection, in insertion order, plus the
counter from which generated identifiers and insertion timestamps are drawn. -/
structure DbState where
  otps : List OtpDoc
  profiles : List ProfileDoc
  swipes : List SwipeDoc
  match_docs : List MatchDoc
  messages : List MessageDoc
  counter : Nat
  deriving DecidableEq

/-- How a request can fail: `http` is a `raise HTTPException(status, detail)`;
`serverError` is an exception that escapes the handler (the framework turns it
into a 500 response); `validationError` is a rejected store-level validation. -/
inductive ApiError where
  | http (status : Nat) (detail : String)
  | serverError (detail : String)
  | validationError (detail : String)
  deriving DecidableEq

/-- Validity test of `bson.ObjectId(s)`: it accepts a string only when it is 24 hexadecimal
characters; anything else raises `InvalidId`. -/
def isValidObjectId (s : String) : Bool :=
  s.length == 24 && s.data.all (fun c => c.isDigit || ('a' ≤ c && c ≤ 'f') || ('A' ≤ c && c ≤ 'F'))

/-- Numeric value of one hexadecimal digit character. -/
def hexVal (c : Char) : Nat :=
  if c.isDigit then c.toNat - 48
  else if 'a' ≤ c && c ≤ 'f' then c.toNat - 87
  else c.toNat - 55

/-- Embedding of `bson.ObjectId(s)`: `none` models the raised `InvalidId` exception,
`some` the identifier the 24 hex characters denote. -/
def parseObjectId (s : String) : Option Nat :=
  if isValidObjectId s then some (s.data.foldl (fun acc c => acc * 16 + hexVal c) 0) else none

/-- Bounds of the draw: `random.randint(100000, 999999)` draws uniformly from
`[100000, 999999]`; the draw is passed in as the parameter `n`. -/
def randintLo : Nat := 100000

/-- Upper bound of the `random.randint` call in `request_otp`. -/
def randintHi : Nat := 999999

/-- Character of a decimal digit. -/
def digitChar (d : Nat) : Char := Char.ofNat (48 + d)

/-- Little-endian decimal digits of `n`, with fuel for structural recursion
(`fuel ≥ n` suffices). -/
def natToDigitsRev : Nat → Nat → List Nat
  | 0, _ => []
  | _+1, 0 => []
  | fuel+1, n+1 => ((n+1) % 10) :: natToDigitsRev fuel ((n+1) / 10)

/-- Python's `str` / an f-string applied to a nonnegative integer: its decimal
digits, most significant first, with no leading zeros. -/
def natToString (n : Nat) : String :=
  if n = 0 then "0" else ((natToDigitsRev n n).reverse.map digitChar).asString

/-- Response of `POST /auth/request-otp`. -/
structure OtpResponse where
  sent : Bool
  code : String
  deriving DecidableEq

/-- Handler `request_otp` (`main.py` lines 57–64): generate the code from the random
draw `n`, insert one OTP document, return the code.  The insert itself
(`create_document`) assigns the generated identifier and insertion
timestamp. -/
def request_otp (email : String) (n : Nat) (s : DbState) : OtpResponse × DbState :=
  let code := natToString n
  ({ sent := true, code := code },
   { s with otps := s.otps ++ [{ id := s.counter, created_at := s.counter, email := email, code := code }],
            counter := s.counter + 1 })

/-- Response of `POST /auth/verify-otp`.  `profile_id` is returned as
`str(_id)` at the boundary; the string rendering is injective, so the
identifier is kept as a natural here. -/
structure VerifyResponse where
  ok : Bool
  profile_id : Nat
  deriving DecidableEq

/-- Embedding of `email.split("@")[0]`: the text before the first `'@'` (the whole string
when there is none). -/
def localPart (email : String) : String :=
  String.mk (email.data.takeWhile (fun c => c ≠ '@'))

/-- Embedding of `db["otp"].find(...).sort("created_at", -1).limit(1)` followed
by `next(docs, None)`: the stored OTP document for `email` with the greatest
`created_at`, or `none` when there is none.  (Timestamps of distinct inserts
are distinct in the model, so the descending sort has a unique first
element.) -/
def newestOtp (email : String) (otps : List OtpDoc) : Option OtpDoc :=
  (otps.filter (fun o => o.email == email)).argmax (fun o => o.created_at)

/-- Handler `verify_otp` (`main.py` lines 67–78): check the supplied code against the
newest OTP for the email, then find or create the profile shell. -/
def verify_otp (email code : String) (s : DbState) : Except ApiError VerifyResponse × DbState :=
  match newestOtp email s.otps with
  | none => (.error (.http 400 "Invalid code"), s)
  | some doc =>
    if doc.code ≠ code then (.error (.http 400 "Invalid code"), s)
    else
      match s.profiles.find? (fun p => p.email == email) with
      | none =>
        let p : ProfileDoc :=
          { id := s.counter, created_at := s.counter, email := email,
            name := some (localPart email), age := none, gender := none, bio := none,
            interests := none, photos := none, location_lat := none, location_lng := none }
        (.ok { ok := true, profile_id := p.id },
         { s with profiles := s.profiles ++ [p], counter := s.counter + 1 })
      | some existing => (.ok { ok := true, profile_id := existing.id }, s)

/-- Handler `get_me` (`main.py` lines 93–98): convert the caller-supplied identifier
with `ObjectId` (unguarded — an invalid string raises before the lookup), then
`find_one` by `_id`. -/
def get_me (profile_id : String) (s : DbState) : Except ApiError ProfileDoc :=
  match parseObjectId profile_id with
  | none => .error (.serverError "bson InvalidId")
  | some oid =>
    match s.profiles.find? (fun p => p.id == oid) with
    | none => .error (.http 404 "Profile not found")
    | some doc => .ok doc

/-- The `ProfileUpdate` request body of `PUT /profiles/me`.  Pydantic's
`model_dump(exclude_unset=True)` distinguishes a field that was absent from
the request (outer `none`) from one explicitly sent as `null` (outer `some`
with inner `none`), so every field is doubly optional. -/
structure ProfileUpdate where
  name : Option (Option String)
  age : Option (Option Int)
  gender : Option (Option String)
  bio : Option (Option String)
  interests : Option (Option (List String))
  photos : Option (Option (List String))
  location_lat : Option (Option Rat)
  location_lng : Option (Option Rat)
  deriving DecidableEq

/-- The `ProfileUpdate` payload with every field unset. -/
def emptyProfileUpdate : ProfileUpdate :=
  { name := none, age := none, gender := none, bio := none,
    interests := none, photos := none, location_lat := none, location_lng := none }

/-- Emptiness test `if not update` on the `exclude_unset` dump: the dump dictionary is empty
exactly when no field of the payload was set. -/
def ProfileUpdate.isEmpty (u : ProfileUpdate) : Bool :=
  u.name == none && u.age == none && u.gender == none && u.bio == none &&
  u.interests == none && u.photos == none && u.location_lat == none && u.location_lng == none

/-- The update document `\x7b"$set": update\x7d` applied to one profile document: each field present in
the dump overwrites the stored field, every other field is untouched. -/
def applyUpdate (u : ProfileUpdate) (p : ProfileDoc) : ProfileDoc :=
  { p with
    name := u.name.getD p.name,
    age := u.age.getD p.age,
    gender := u.gender.getD p.gender,
    bio := u.bio.getD p.bio,
    interests := u.interests.getD p.interests,
    photos := u.photos.getD p.photos,
    location_lat := u.location_lat.getD p.location_lat,
    location_lng := u.location_lng.getD p.location_lng }

/-- Mongo `update_one`: rewrite the first document matching the predicate,
leave everything else in place (no-op when nothing matches). -/
def updateFirst (p : α → Bool) (f : α → α) : List α → List α
  | [] => []
  | x :: xs => if p x then f x :: xs else x :: updateFirst p f xs

/-- Result of `PUT /profiles/me`: `{"updated": false}` for an empty partial
payload, otherwise `to_doc` of the re-fetched document (`none` renders as a
null body when the identifier matches nothing). -/
inductive UpdateResponse where
  | noChanges
  | doc (d : Option ProfileDoc)
  deriving DecidableEq

/-- Handler `update_me` (`main.py` lines 101–108): build the `exclude_unset` dump;
return `{"updated": false}` without touching the store when it is empty
(before any `ObjectId` conversion); otherwise convert the identifier
(unguarded), `$set` the dumped fields on the matched document, re-fetch and
return it. -/
def update_me (profile_id : String) (u : ProfileUpdate) (s : DbState) :
    Except ApiError UpdateResponse × DbState :=
  if u.isEmpty then (.ok .noChanges, s)
  else
    match parseObjectId profile_id with
    | none => (.error (.serverError "bson InvalidId"), s)
    | some oid =>
      let profiles := updateFirst (fun p => p.id == oid) (applyUpdate u) s.profiles
      ((.ok (.doc (profiles.find? (fun p => p.id == oid)))), { s with profiles := profiles })

/-- Handler `discover` (`main.py` lines 112–115): unguarded `ObjectId` conversion,
then every profile other than the caller's, up to `limit`, in store order. -/
def discover (profile_id : String) (limit : Nat) (s : DbState) :
    Except ApiError (List ProfileDoc) :=
  match parseObjectId profile_id with
  | none => .error (.serverError "bson InvalidId")
  | some oid => .ok ((s.profiles.filter (fun p => !(p.id == oid))).take limit)

/-- The `SwipeIn` request body of `POST /swipe`. -/
structure SwipeIn where
  target_id : String
  action : String
  deriving DecidableEq

/-- Response of `POST /swipe`.  The source's `"match"` key is spelt
`matched` because `match` is reserved in Lean. -/
structure SwipeResponse where
  ok : Bool
  matched : Bool
  match_id : Option Nat
  deriving DecidableEq

/-- Handler `swipe` (`main.py` lines 124–151): reject any action other than `like` or
`pass`; append the swipe unconditionally; on `like`, look for a reciprocal
like (over the store that now contains the new swipe), then find-or-create the
match, checking both orderings of the pair. -/
def swipe (profile_id : String) (payload : SwipeIn) (s : DbState) :
    Except ApiError SwipeResponse × DbState :=
  if payload.action ≠ "like" ∧ payload.action ≠ "pass" then
    (.error (.http 400 "Invalid action"), s)
  else
    let sw : SwipeDoc :=
      { id := s.counter, created_at := s.counter,
        user_id := profile_id, target_id := payload.target_id, action := payload.action }
    let s1 : DbState := { s with swipes := s.swipes ++ [sw], counter := s.counter + 1 }
    if payload.action = "like" then
      match s1.swipes.find? (fun w =>
          w.user_id == payload.target_id && w.target_id == profile_id && w.action == "like") with
      | none => (.ok { ok := true, matched := false, match_id := none }, s1)
      | some _ =>
        match s1.match_docs.find? (fun m =>
            (m.user_a == profile_id && m.user_b == payload.target_id) ||
            (m.user_a == payload.target_id && m.user_b == profile_id)) with
        | none =>
          let md : MatchDoc :=
            { id := s1.counter, created_at := s1.counter,
              user_a := profile_id, user_b := payload.target_id }
          (.ok { ok := true, matched := true, match_id := some md.id },
           { s1 with match_docs := s1.match_docs ++ [md], counter := s1.counter + 1 })
        | some existing =>
          (.ok { ok := true, matched := true, match_id := some existing.id }, s1)
    else
      (.ok { ok := true, matched := false, match_id := none }, s1)

/-- Sorted insertion for `sortByCreatedDesc`. -/
def insertByCreatedDesc (m : MessageDoc) : List MessageDoc → List MessageDoc
  | [] => [m]
  | x :: xs => if x.created_at < m.created_at then m :: x :: xs else x :: insertByCreatedDesc m xs

/-- Embedding of `.sort("created_at", -1)` on a message cursor: stable sort, newest
first. -/
def sortByCreatedDesc : List MessageDoc → List MessageDoc
  | [] => []
  | x :: xs => insertByCreatedDesc x (sortByCreatedDesc xs)

/-- Handler `list_messages` (`main.py` lines 175–178): filter by `match_id` (compared
as the raw string), sort newest first, truncate to `limit`, then reverse into
chronological order. -/
def list_messages (match_id : String) (limit : Nat) (s : DbState) : List MessageDoc :=
  ((sortByCreatedDesc (s.messages.filter (fun m => m.match_id == match_id))).take limit).reverse

/-- Variant of `GET /messages` with the `limit` query parameter omitted: FastAPI fills in
the declared default of 50. -/
def list_messages_default (match_id : String) (s : DbState) : List MessageDoc :=
  list_messages match_id 50 s

/-- Modelled from the spec: `create_document` lives in `database.py`, which is
not among the sources; per the spec it enforces the store-level constraint of
`schemas.Message` that `text` is 1–2000 characters, rejecting violations with
a validation error. -/
def validMessageText (text : String) : Bool :=
  1 ≤ text.length && text.length ≤ 2000

/-- Handler `send_message` (`main.py` lines 181–185): insert the message (the insert
validates the text length, see `validMessageText`), then re-fetch the inserted
document by its identifier (`ObjectId(mid)` of the returned `str(_id)` parses
back to the same identifier) and return it. -/
def send_message (match_id sender_id : String) (text : String) (s : DbState) :
    Except ApiError (Option MessageDoc) × DbState :=
  if validMessageText text then
    let m : MessageDoc :=
      { id := s.counter, created_at := s.counter,
        match_id := match_id, sender_id := sender_id, text := text }
    let s1 : DbState := { s with messages := s.messages ++ [m], counter := s.counter + 1 }
    (.ok (s1.messages.find? (fun d => d.id == m.id)), s1)
  else
    (.error (.validationError "text must be 1-2000 characters"), s)

/-- A store all of whose message identifiers were generated before the current
counter value — true of every state the handlers can reach. -/
def FreshMessageIds (s : DbState) : Prop :=
  ∀ m ∈ s.messages, m.id < s.counter

/-- The empty store. -/
def emptyDb : DbState :=
  { otps := [], profiles := [], swipes := [], match_docs := [], messages := [], counter := 0 }

/-! ## Helper lemmas -/

/-- The swipe document inserted by a call to `swipe`. -/
def insertedSwipe (s : DbState) (profile_id : String) (payload : SwipeIn) : SwipeDoc :=
  { id := s.counter, created_at := s.counter,
    user_id := profile_id, target_id := payload.target_id, action := payload.action }

theorem swipe_like_no_reciprocal (s : DbState) (pid t : String) (hne : pid ≠ t)
    (h : ∀ w ∈ s.swipes, ¬(w.user_id = t ∧ w.target_id = pid ∧ w.action = "like")) :
    swipe pid { target_id := t, action := "like" } s =
      (.ok { ok := true, matched := false, match_id := none },
       { s with swipes := s.swipes ++ [insertedSwipe s pid { target_id := t, action := "like" }],
                counter := s.counter + 1 }) := by
  have hf1 : s.swipes.find? (fun w => w.user_id == t && w.target_id == pid && w.action == "like") = none := by
    refine List.find?_eq_none.mpr ?_
    intro w hw
    have := h w hw
    simp only [Bool.and_eq_true, beq_iff_eq]
    tauto
  simp [swipe, hf1, hne, insertedSwipe]


theorem swipe_like_matched_new (s : DbState) (pid t : String)
    (hrecip : (∃ w ∈ s.swipes, w.user_id = t ∧ w.target_id = pid ∧ w.action = "like") ∨ pid = t)
    (hm : ∀ m ∈ s.match_docs, ¬((m.user_a = pid ∧ m.user_b = t) ∨ (m.user_a = t ∧ m.user_b = pid))) :
    swipe pid { target_id := t, action := "like" } s =
      (.ok { ok := true, matched := true, match_id := some (s.counter + 1) },
       { s with swipes := s.swipes ++ [insertedSwipe s pid { target_id := t, action := "like" }],
                match_docs := s.match_docs ++
                  [{ id := s.counter + 1, created_at := s.counter + 1, user_a := pid, user_b := t }],
                counter := s.counter + 1 + 1 }) := by
  have hm' : s.match_docs.find?
      (fun m => (m.user_a == pid && m.user_b == t) || (m.user_a == t && m.user_b == pid)) = none := by
    refine List.find?_eq_none.mpr ?_
    intro m hmem
    have := hm m hmem
    simp only [Bool.or_eq_true, Bool.and_eq_true, beq_iff_eq]
    tauto
  rcases hf : s.swipes.find? (fun w => w.user_id == t && w.target_id == pid && w.action == "like")
      with _ | w
  · rcases hrecip with ⟨w, hw, hprop⟩ | rfl
    · exfalso
      have := List.find?_eq_none.mp hf w hw
      simp only [Bool.and_eq_true, beq_iff_eq] at this
      tauto
    · have hm2 : s.match_docs.find? (fun m => m.user_a == pid && m.user_b == pid) = none := by
        refine List.find?_eq_none.mpr ?_
        intro m hmem
        have := hm m hmem
        simp only [Bool.and_eq_true, beq_iff_eq]
        tauto
      simp [swipe, hf, hm2, insertedSwipe]
  · simp [swipe, hf, hm', insertedSwipe]

/-! ## Claim theorems -/

/-- C7: `swipe` with an action other than exactly `"like"` or `"pass"` fails
with the `Invalid action` client error and leaves the store unchanged (the
rejection happens before the insert); for `"like"` or `"pass"` it always
appends a new swipe document — with no condition on prior swipes, so identical
duplicates are appended again. -/
theorem swipe_rejects_invalid_action (s : DbState) (pid : String) (payload : SwipeIn) :
    (payload.action ≠ "like" ∧ payload.action ≠ "pass" →
      swipe pid payload s = (.error (.http 400 "Invalid action"), s)) ∧
    (payload.action = "like" ∨ payload.action = "pass" →
      (swipe pid payload s).2.swipes = s.swipes ++ [insertedSwipe s pid payload]) := by
  constructor
  · intro h
    simp [swipe, h.1, h.2]
  · rintro (h | h)
    · obtain ⟨t, a⟩ := payload
      dsimp only at h
      subst h
      simp only [swipe, insertedSwipe]
      rw [if_neg (by simp)]
      simp only [if_true]
      split
      · rfl
      · split <;> rfl
    · obtain ⟨t, a⟩ := payload
      dsimp only at h
      subst h
      simp only [swipe, insertedSwipe]
      rw [if_neg (by simp), if_neg (by simp)]

/-- Witness for C7 at concrete inputs: action `"maybe"` is rejected with no
state change even on the empty store, and a `"like"` identical to an
already-recorded swipe is appended again. -/
theorem swipe_rejects_invalid_action_witness :
    swipe "u1" { target_id := "u2", action := "maybe" } emptyDb =
      (.error (.http 400 "Invalid action"), emptyDb) ∧
    (swipe "u1" { target_id := "u2", action := "like" }
        { emptyDb with
          swipes := [{ id := 0, created_at := 0, user_id := "u1", target_id := "u2", action := "like" }],
          counter := 1 }).2.swipes =
      [{ id := 0, created_at := 0, user_id := "u1", target_id := "u2", action := "like" },
       { id := 1, created_at := 1, user_id := "u1", target_id := "u2", action := "like" }] :=
  ⟨(swipe_rejects_invalid_action emptyDb "u1" { target_id := "u2", action := "maybe" }).1
      (by decide),
   (swipe_rejects_invalid_action
      { emptyDb with
        swipes := [{ id := 0, created_at := 0, user_id := "u1", target_id := "u2", action := "like" }],
        counter := 1 } "u1" { target_id := "u2", action := "like" }).2 (Or.inl rfl)⟩

/-- C9: `swipe` never compares the caller with the target, so a self-like
`swipe A {A, like}` finds the swipe document it just inserted in the
reciprocal-like lookup and reports `matched: true` at once; when no match for
`(A, A)` exists yet, it also creates a match document whose `user_a` and
`user_b` are both `A`. -/
theorem swipe_self_like_matches (s : DbState) (A : String)
    (hNoM : ∀ m ∈ s.match_docs, ¬(m.user_a = A ∧ m.user_b = A)) :
    swipe A { target_id := A, action := "like" } s =
      (.ok { ok := true, matched := true, match_id := some (s.counter + 1) },
       { s with swipes := s.swipes ++ [insertedSwipe s A { target_id := A, action := "like" }],
                match_docs := s.match_docs ++
                  [{ id := s.counter + 1, created_at := s.counter + 1, user_a := A, user_b := A }],
                counter := s.counter + 1 + 1 }) := by
  refine swipe_like_matched_new s A A (Or.inr rfl) ?_
  intro m hm
  have := hNoM m hm
  tauto

/-- Witness for C9: a single self-like on the empty store immediately reports
a match and stores the degenerate match document. -/
theorem swipe_self_like_matches_witness :
    swipe "u1" { target_id := "u1", action := "like" } emptyDb =
      (.ok { ok := true, matched := true, match_id := some 1 },
       { emptyDb with
         swipes := [{ id := 0, created_at := 0, user_id := "u1", target_id := "u1", action := "like" }],
         match_docs := [{ id := 1, created_at := 1, user_a := "u1", user_b := "u1" }],
         counter := 2 }) :=
  swipe_self_like_matches emptyDb "u1" (by decide)

/-- C1: on a store with no `B → A` like yet and no match for the unordered
pair, `swipe A {B, like}` reports `matched: false`, the subsequent
`swipe B {A, like}` finds the reciprocal like and reports `matched: true`,
and afterwards exactly one match document exists for the unordered pair
`{A, B}` (the existence lookup in `swipe` checks both orderings).  `A` and
`B` are arbitrary distinct profiles, so the property holds regardless of
which of the two likes first. -/
theorem mutual_like_single_match (s : DbState) (A B : String) (hAB : A ≠ B)
    (hNoBA : ∀ w ∈ s.swipes, ¬(w.user_id = B ∧ w.target_id = A ∧ w.action = "like"))
    (hNoM : ∀ m ∈ s.match_docs,
      ¬((m.user_a = A ∧ m.user_b = B) ∨ (m.user_a = B ∧ m.user_b = A))) :
    (swipe A { target_id := B, action := "like" } s).1 =
      .ok { ok := true, matched := false, match_id := none } ∧
    (swipe B { target_id := A, action := "like" }
        (swipe A { target_id := B, action := "like" } s).2).1 =
      .ok { ok := true, matched := true, match_id := some (s.counter + 1 + 1) } ∧
    ((swipe B { target_id := A, action := "like" }
        (swipe A { target_id := B, action := "like" } s).2).2).match_docs.countP
      (fun m => (m.user_a == A && m.user_b == B) || (m.user_a == B && m.user_b == A)) = 1 := by
  have h1 := swipe_like_no_reciprocal s A B hAB hNoBA
  set sw1 := insertedSwipe s A { target_id := B, action := "like" } with hsw1
  set s1 : DbState :=
    { s with swipes := s.swipes ++ [sw1], counter := s.counter + 1 } with hs1
  have h2 := swipe_like_matched_new s1 B A
    (Or.inl ⟨sw1, by simp [hs1], by simp [hsw1, insertedSwipe]⟩)
    (by
      intro m hm
      have := hNoM m (by simpa [hs1] using hm)
      tauto)
  rw [h1]
  refine ⟨rfl, ?_, ?_⟩
  · rw [h2]
  · rw [h2]
    have hzero : s.match_docs.countP
        (fun m => (m.user_a == A && m.user_b == B) || (m.user_a == B && m.user_b == A)) = 0 := by
      refine List.countP_eq_zero.mpr ?_
      intro m hm
      have := hNoM m hm
      simp only [Bool.or_eq_true, Bool.and_eq_true, beq_iff_eq]
      tauto
    simp [hs1, List.countP_append, hzero, hAB.symm]

/-- Witness for C1: profiles `"a"` and `"b"` on the empty store; the first
like does not match, the second does, and a single match document for the
pair results. -/
theorem mutual_like_single_match_witness :
    (swipe "a" { target_id := "b", action := "like" } emptyDb).1 =
      .ok { ok := true, matched := false, match_id := none } ∧
    (swipe "b" { target_id := "a", action := "like" }
        (swipe "a" { target_id := "b", action := "like" } emptyDb).2).1 =
      .ok { ok := true, matched := true, match_id := some 2 } ∧
    ((swipe "b" { target_id := "a", action := "like" }
        (swipe "a" { target_id := "b", action := "like" } emptyDb).2).2).match_docs.countP
      (fun m => (m.user_a == "a" && m.user_b == "b") || (m.user_a == "b" && m.user_b == "a")) = 1 :=
  mutual_like_single_match emptyDb "a" "b" (by decide) (by decide) (by decide)

/-- The `ProfileUpdate` payload whose only present field is `age`. -/
def agePayload (a : Int) : ProfileUpdate :=
  { emptyProfileUpdate with age := some (some a) }

/-- C10: the `ObjectId` conversion in `get_me`, `update_me` (on a non-empty
payload) and `discover` is unguarded: an identifier that is not a 24-hex-char
ObjectId string raises before any store lookup, so the caller gets a server
error, not `NotFound` and not a validation error; `NotFound` (404) is reached
only for a well-formed identifier that matches no stored profile. -/
theorem objectid_conversion_unguarded (s : DbState) (pid : String) :
    (isValidObjectId pid = false →
      get_me pid s = .error (.serverError "bson InvalidId") ∧
      (∀ u : ProfileUpdate, u.isEmpty = false →
        update_me pid u s = (.error (.serverError "bson InvalidId"), s)) ∧
      (∀ limit, discover pid limit s = .error (.serverError "bson InvalidId"))) ∧
    (∀ oid, parseObjectId pid = some oid →
      (∀ p ∈ s.profiles, p.id ≠ oid) →
      get_me pid s = .error (.http 404 "Profile not found")) := by
  constructor
  · intro hbad
    have hp : parseObjectId pid = none := by simp [parseObjectId, hbad]
    refine ⟨by simp [get_me, hp], ?_, by intro limit; simp [discover, hp]⟩
    intro u hu
    simp [update_me, hu, hp]
  · intro oid hoid hnone
    have hf : s.profiles.find? (fun p => p.id == oid) = none := by
      refine List.find?_eq_none.mpr ?_
      intro p hp
      simpa using hnone p hp
    simp [get_me, hoid, hf]

/-- Witness for C10: `"not-an-objectid"` (not 24 hex characters) yields the
server error on all three endpoints, while the well-formed
`"ffffffffffffffffffffffff"` on the empty store yields 404 from `get_me`. -/
theorem objectid_conversion_unguarded_witness :
    (get_me "not-an-objectid" emptyDb = .error (.serverError "bson InvalidId") ∧
      update_me "not-an-objectid" (agePayload 30) emptyDb =
        (.error (.serverError "bson InvalidId"), emptyDb) ∧
      discover "not-an-objectid" 10 emptyDb = .error (.serverError "bson InvalidId")) ∧
    get_me "ffffffffffffffffffffffff" emptyDb = .error (.http 404 "Profile not found") := by
  have h := objectid_conversion_unguarded emptyDb "not-an-objectid"
  have h2 := objectid_conversion_unguarded emptyDb "ffffffffffffffffffffffff"
  obtain ⟨ha, hb, hc⟩ := h.1 (by decide)
  exact ⟨⟨ha, hb (agePayload 30) (by decide), hc 10⟩,
    h2.2 ((16 ^ 24 : Nat) - 1) (by decide) (by decide)⟩

/-- C6: `update_me` is a sparse partial update.  An empty partial payload
performs no write, leaves the store byte-for-byte unchanged and reports
`{"updated": false}`; a payload whose only present field is `age` rewrites
the matched profile to `{ p with age }` — every other field of that profile,
every other profile and every other collection are exactly as before — and
returns the re-fetched document. -/
theorem update_profile_sparse (s : DbState) (pid : String) :
    update_me pid emptyProfileUpdate s = (.ok .noChanges, s) ∧
    (∀ (a : Int) (p : ProfileDoc), applyUpdate (agePayload a) p = { p with age := some a }) ∧
    (∀ (a : Int) (oid : Nat), parseObjectId pid = some oid →
      update_me pid (agePayload a) s =
        (.ok (.doc ((updateFirst (fun p => p.id == oid) (applyUpdate (agePayload a)) s.profiles).find?
            (fun p => p.id == oid))),
         { s with profiles := updateFirst (fun p => p.id == oid) (applyUpdate (agePayload a)) s.profiles })) := by
  refine ⟨rfl, fun a p => rfl, ?_⟩
  intro a oid hoid
  simp [update_me, agePayload, emptyProfileUpdate, ProfileUpdate.isEmpty, hoid]

/-- Witness for C6: on a store holding one fully populated profile, the empty
payload is a no-op reporting no update, and `{age: 30}` rewrites exactly the
`age` field of that profile. -/
theorem update_profile_sparse_witness :
    update_me "000000000000000000000005" emptyProfileUpdate
        { emptyDb with
          profiles := [{ id := 5, created_at := 0, email := "u@x.io", name := some "u",
                         age := some 22, gender := some "other", bio := some "hi",
                         interests := some ["a"], photos := some ["p"],
                         location_lat := some 1, location_lng := some 2 }],
          counter := 6 } =
      (.ok .noChanges,
       { emptyDb with
         profiles := [{ id := 5, created_at := 0, email := "u@x.io", name := some "u",
                        age := some 22, gender := some "other", bio := some "hi",
                        interests := some ["a"], photos := some ["p"],
                        location_lat := some 1, location_lng := some 2 }],
         counter := 6 }) ∧
    update_me "000000000000000000000005" (agePayload 30)
        { emptyDb with
          profiles := [{ id := 5, created_at := 0, email := "u@x.io", name := some "u",
                         age := some 22, gender := some "other", bio := some "hi",
                         interests := some ["a"], photos := some ["p"],
                         location_lat := some 1, location_lng := some 2 }],
          counter := 6 } =
      (.ok (.doc (some { id := 5, created_at := 0, email := "u@x.io", name := some "u",
                         age := some 30, gender := some "other", bio := some "hi",
                         interests := some ["a"], photos := some ["p"],
                         location_lat := some 1, location_lng := some 2 })),
       { emptyDb with
         profiles := [{ id := 5, created_at := 0, email := "u@x.io", name := some "u",
                        age := some 30, gender := some "other", bio := some "hi",
                        interests := some ["a"], photos := some ["p"],
                        location_lat := some 1, location_lng := some 2 }],
         counter := 6 }) := by
  have h := update_profile_sparse
    { emptyDb with
      profiles := [{ id := 5, created_at := 0, email := "u@x.io", name := some "u",
                     age := some 22, gender := some "other", bio := some "hi",
                     interests := some ["a"], photos := some ["p"],
                     location_lat := some 1, location_lng := some 2 }],
      counter := 6 } "000000000000000000000005"
  refine ⟨h.1, ?_⟩
  have h3 := h.2.2 30 5 (by decide)
  rw [h3]
  decide

theorem newestOtp_eq (email : String) (otps : List OtpDoc) (o : OtpDoc)
    (hmem : o ∈ otps) (hemail : o.email = email)
    (hdom : ∀ o' ∈ otps, o'.email = email → o' ≠ o → o'.created_at < o.created_at) :
    newestOtp email otps = some o := by
  have hof : o ∈ otps.filter (fun x => x.email == email) :=
    List.mem_filter.mpr ⟨hmem, by simp [hemail]⟩
  rcases hm : (otps.filter (fun x => x.email == email)).argmax (fun x => x.created_at)
      with _ | m
  · exfalso
    have hnil : otps.filter (fun x => x.email == email) = [] := List.argmax_eq_none.mp hm
    rw [hnil] at hof
    exact absurd hof (List.not_mem_nil o)
  · have hargm : m ∈ (otps.filter (fun x => x.email == email)).argmax (fun x => x.created_at) :=
      Option.mem_def.mpr hm
    have hmm := List.argmax_mem hargm
    have hnl : ¬ m.created_at < o.created_at := List.not_lt_of_mem_argmax hof hargm
    by_cases heq : m = o
    · rw [newestOtp, hm, heq]
    · exfalso
      rcases List.mem_filter.mp hmm with ⟨hm1, hm2⟩
      exact hnl (hdom m hm1 (by simpa using hm2) heq)

/-- C4: `verify_otp` compares the supplied code by exact string equality
against only the newest stored OTP for the email: it fails with the
`Invalid code` error when no OTP exists for the email, and when the supplied
code differs from the newest record's code — with no hypothesis about older
records, so it fails even when the supplied code equals an older record's
code. -/
theorem verify_checks_newest_only (s : DbState) (email code : String) :
    ((∀ o ∈ s.otps, o.email ≠ email) →
      verify_otp email code s = (.error (.http 400 "Invalid code"), s)) ∧
    (∀ o ∈ s.otps, o.email = email →
      (∀ o' ∈ s.otps, o'.email = email → o' ≠ o → o'.created_at < o.created_at) →
      code ≠ o.code →
      verify_otp email code s = (.error (.http 400 "Invalid code"), s)) := by
  constructor
  · intro h
    have hnone : newestOtp email s.otps = none := by
      rw [newestOtp, List.argmax_eq_none]
      refine List.filter_eq_nil_iff.mpr ?_
      intro o ho
      simpa using h o ho
    simp [verify_otp, hnone]
  · intro o hmem hemail hdom hcode
    have hno := newestOtp_eq email s.otps o hmem hemail hdom
    simp [verify_otp, hno, Ne.symm hcode]

/-- Witness for C4: on the empty store verification fails; on a store with an
older OTP `"111111"` and a newer OTP `"222222"` for the same email, supplying
`"111111"` — the code of the older record — still fails. -/
theorem verify_checks_newest_only_witness :
    verify_otp "u@x.io" "123456" emptyDb = (.error (.http 400 "Invalid code"), emptyDb) ∧
    verify_otp "u@x.io" "111111"
        { emptyDb with
          otps := [{ id := 0, created_at := 0, email := "u@x.io", code := "111111" },
                   { id := 1, created_at := 1, email := "u@x.io", code := "222222" }],
          counter := 2 } =
      (.error (.http 400 "Invalid code"),
       { emptyDb with
         otps := [{ id := 0, created_at := 0, email := "u@x.io", code := "111111" },
                  { id := 1, created_at := 1, email := "u@x.io", code := "222222" }],
         counter := 2 }) :=
  ⟨(verify_checks_newest_only emptyDb "u@x.io" "123456").1 (by decide),
   (verify_checks_newest_only
      { emptyDb with
        otps := [{ id := 0, created_at := 0, email := "u@x.io", code := "111111" },
                 { id := 1, created_at := 1, email := "u@x.io", code := "222222" }],
        counter := 2 } "u@x.io" "111111").2
     { id := 1, created_at := 1, email := "u@x.io", code := "222222" }
     (by decide) rfl (by decide) (by decide)⟩

/-- The profile shell `verify_otp` inserts on first successful verification:
only `email` and a `name` defaulted to the email's local part. -/
def provisionedProfile (email : String) (c : Nat) : ProfileDoc :=
  { id := c, created_at := c, email := email, name := some (localPart email),
    age := none, gender := none, bio := none, interests := none, photos := none,
    location_lat := none, location_lng := none }

/-- C5: on a successful verification (the newest OTP for the email matches the
supplied code), if no profile exists for the email then exactly one profile is
created — its `name` is the local part of the email — and its identifier is
returned, and a second successful verification finds that profile, creates
nothing, and returns the same identifier; if a profile already exists, none is
created and the existing identifier is returned. -/
theorem verify_profile_idempotent (s : DbState) (email code : String) (o : OtpDoc)
    (ho : newestOtp email s.otps = some o) (hcode : o.code = code) :
    ((∀ p ∈ s.profiles, p.email ≠ email) →
      verify_otp email code s =
        (.ok { ok := true, profile_id := s.counter },
         { s with profiles := s.profiles ++ [provisionedProfile email s.counter],
                  counter := s.counter + 1 }) ∧
      verify_otp email code
          { s with profiles := s.profiles ++ [provisionedProfile email s.counter],
                   counter := s.counter + 1 } =
        (.ok { ok := true, profile_id := s.counter },
         { s with profiles := s.profiles ++ [provisionedProfile email s.counter],
                  counter := s.counter + 1 })) ∧
    (∀ p, s.profiles.find? (fun q => q.email == email) = some p →
      verify_otp email code s = (.ok { ok := true, profile_id := p.id }, s)) := by
  constructor
  · intro hfresh
    have hfind : s.profiles.find? (fun q => q.email == email) = none := by
      refine List.find?_eq_none.mpr ?_
      intro p hp
      simpa using hfresh p hp
    constructor
    · simp [verify_otp, ho, hcode, hfind, provisionedProfile]
    · simp [verify_otp, ho, hcode, hfind, provisionedProfile, localPart]
  · intro p hp
    simp [verify_otp, ho, hcode, hp]

/-- Witness for C5: requesting a code for a fresh email and verifying twice
returns profile identifier 1 both times, with a single created profile named
after the email's local part. -/
theorem verify_profile_idempotent_witness :
    verify_otp "u@x.io" "123456"
        { emptyDb with
          otps := [{ id := 0, created_at := 0, email := "u@x.io", code := "123456" }],
          counter := 1 } =
      (.ok { ok := true, profile_id := 1 },
       { emptyDb with
         otps := [{ id := 0, created_at := 0, email := "u@x.io", code := "123456" }],
         profiles := [provisionedProfile "u@x.io" 1],
         counter := 2 }) ∧
    verify_otp "u@x.io" "123456"
        { emptyDb with
          otps := [{ id := 0, created_at := 0, email := "u@x.io", code := "123456" }],
          profiles := [provisionedProfile "u@x.io" 1],
          counter := 2 } =
      (.ok { ok := true, profile_id := 1 },
       { emptyDb with
         otps := [{ id := 0, created_at := 0, email := "u@x.io", code := "123456" }],
         profiles := [provisionedProfile "u@x.io" 1],
         counter := 2 }) :=
  (verify_profile_idempotent
    { emptyDb with
      otps := [{ id := 0, created_at := 0, email := "u@x.io", code := "123456" }],
      counter := 1 } "u@x.io" "123456"
    { id := 0, created_at := 0, email := "u@x.io", code := "123456" }
    (by decide) rfl).1 (by decide)

/-- C2: `send_message` persists a message only when the text is 1–2000
characters: out-of-range text fails with a validation error and appends
nothing, while in-range text appends exactly one message document and returns
the persisted document, including its generated identifier and insertion
timestamp.  (`FreshMessageIds` — all stored identifiers predate the counter —
holds of every reachable store and makes the read-back find the new
document.) -/
theorem send_message_length_validated (s : DbState) (mid sid text : String)
    (hfresh : FreshMessageIds s) :
    ((text.length = 0 ∨ 2000 < text.length) →
      send_message mid sid text s =
        (.error (.validationError "text must be 1-2000 characters"), s)) ∧
    (1 ≤ text.length → text.length ≤ 2000 →
      send_message mid sid text s =
        (.ok (some { id := s.counter, created_at := s.counter, match_id := mid,
                     sender_id := sid, text := text }),
         { s with
           messages := s.messages ++
             [{ id := s.counter, created_at := s.counter, match_id := mid,
                sender_id := sid, text := text }],
           counter := s.counter + 1 })) := by
  constructor
  · intro h
    have hv : validMessageText text = false := by
      simp [validMessageText]
      omega
    simp [send_message, hv]
  · intro h1 h2
    have hv : validMessageText text = true := by
      simp only [validMessageText, Bool.and_eq_true, decide_eq_true_eq]
      omega
    have hf : s.messages.find? (fun d => d.id == s.counter) = none := by
      refine List.find?_eq_none.mpr ?_
      intro m hm
      simpa using Nat.ne_of_lt (hfresh m hm)
    simp [send_message, hv, hf]

set_option maxRecDepth 8192 in
/-- Witness for C2: on the empty store, empty text and 2001-character text are
rejected without a write, and `"hello"` is stored and returned with
identifier and timestamp 0. -/
theorem send_message_length_validated_witness :
    send_message "m1" "u1" "" emptyDb =
      (.error (.validationError "text must be 1-2000 characters"), emptyDb) ∧
    send_message "m1" "u1" (String.mk (List.replicate 2001 'x')) emptyDb =
      (.error (.validationError "text must be 1-2000 characters"), emptyDb) ∧
    send_message "m1" "u1" "hello" emptyDb =
      (.ok (some { id := 0, created_at := 0, match_id := "m1", sender_id := "u1", text := "hello" }),
       { emptyDb with
         messages := [{ id := 0, created_at := 0, match_id := "m1", sender_id := "u1", text := "hello" }],
         counter := 1 }) :=
  ⟨(send_message_length_validated emptyDb "m1" "u1" ""
      (fun m hm => absurd hm (List.not_mem_nil m))).1 (Or.inl rfl),
   (send_message_length_validated emptyDb "m1" "u1" (String.mk (List.replicate 2001 'x'))
      (fun m hm => absurd hm (List.not_mem_nil m))).1 (Or.inr (by simp [String.length])),
   (send_message_length_validated emptyDb "m1" "u1" "hello"
      (fun m hm => absurd hm (List.not_mem_nil m))).2 (by decide) (by decide)⟩

theorem insertByCreatedDesc_append (m : MessageDoc) (l : List MessageDoc)
    (h : ∀ x ∈ l, ¬ x.created_at < m.created_at) :
    insertByCreatedDesc m l = l ++ [m] := by
  induction l with
  | nil => rfl
  | cons x xs ih =>
    rw [insertByCreatedDesc, if_neg (h x (List.mem_cons_self x xs)),
      ih (fun y hy => h y (List.mem_cons_of_mem x hy))]
    rfl

theorem sortByCreatedDesc_of_ascending (l : List MessageDoc)
    (h : l.Pairwise (fun a b => a.created_at < b.created_at)) :
    sortByCreatedDesc l = l.reverse := by
  induction l with
  | nil => rfl
  | cons x xs ih =>
    rcases List.pairwise_cons.mp h with ⟨hx, hxs⟩
    rw [sortByCreatedDesc, ih hxs, insertByCreatedDesc_append, List.reverse_cons]
    intro y hy
    exact Nat.lt_asymm (hx y (List.mem_reverse.mp hy))

theorem reverse_take_reverse (l : List MessageDoc) (n : Nat) :
    (l.reverse.take n).reverse = l.drop (l.length - n) := by
  have h := @List.reverse_take MessageDoc l.reverse n
  simpa using h

/-- C8: `list_messages` returns the most recent `limit` messages of the match
in ascending creation-time order: on a store whose messages for the match are
in ascending creation-time order (true of every reachable store), the result
is the suffix of length at most `limit` — the oldest messages beyond the
window are omitted; a match with no messages yields `[]`, not an error; and
the default limit is 50. -/
theorem list_messages_window (s : DbState) (mid : String) (limit : Nat)
    (hasc : (s.messages.filter (fun m => m.match_id == mid)).Pairwise
      (fun a b => a.created_at < b.created_at)) :
    list_messages mid limit s =
      (s.messages.filter (fun m => m.match_id == mid)).drop
        ((s.messages.filter (fun m => m.match_id == mid)).length - limit) ∧
    ((∀ m ∈ s.messages, m.match_id ≠ mid) → list_messages mid limit s = []) ∧
    list_messages_default mid s = list_messages mid 50 s := by
  have hmain : list_messages mid limit s =
      (s.messages.filter (fun m => m.match_id == mid)).drop
        ((s.messages.filter (fun m => m.match_id == mid)).length - limit) := by
    rw [list_messages, sortByCreatedDesc_of_ascending _ hasc, reverse_take_reverse]
  refine ⟨hmain, ?_, rfl⟩
  intro hnone
  have hnil : s.messages.filter (fun m => m.match_id == mid) = [] := by
    refine List.filter_eq_nil_iff.mpr ?_
    intro m hm
    simpa using hnone m hm
  rw [hmain, hnil]
  simp

/-- Witness for C8: with two messages for match `"m1"` and one for another
match, the limit-1 listing returns only the newest `"m1"` message, and a
match with no messages lists as empty. -/
theorem list_messages_window_witness :
    list_messages "m1" 1
        { emptyDb with
          messages := [{ id := 0, created_at := 0, match_id := "m1", sender_id := "a", text := "x" },
                       { id := 1, created_at := 1, match_id := "m2", sender_id := "a", text := "y" },
                       { id := 2, created_at := 2, match_id := "m1", sender_id := "a", text := "z" }],
          counter := 3 } =
      [{ id := 2, created_at := 2, match_id := "m1", sender_id := "a", text := "z" }] ∧
    list_messages "m3" 50
        { emptyDb with
          messages := [{ id := 0, created_at := 0, match_id := "m1", sender_id := "a", text := "x" },
                       { id := 1, created_at := 1, match_id := "m2", sender_id := "a", text := "y" },
                       { id := 2, created_at := 2, match_id := "m1", sender_id := "a", text := "z" }],
          counter := 3 } = [] :=
  ⟨((list_messages_window
      { emptyDb with
        messages := [{ id := 0, created_at := 0, match_id := "m1", sender_id := "a", text := "x" },
                     { id := 1, created_at := 1, match_id := "m2", sender_id := "a", text := "y" },
                     { id := 2, created_at := 2, match_id := "m1", sender_id := "a", text := "z" }],
        counter := 3 } "m1" 1 (by decide)).1).trans (by decide),
   (list_messages_window
      { emptyDb with
        messages := [{ id := 0, created_at := 0, match_id := "m1", sender_id := "a", text := "x" },
                     { id := 1, created_at := 1, match_id := "m2", sender_id := "a", text := "y" },
                     { id := 2, created_at := 2, match_id := "m1", sender_id := "a", text := "z" }],
        counter := 3 } "m3" 50 (by decide)).2.1 (by decide)⟩

theorem natToDigitsRev_zero (fuel : Nat) : natToDigitsRev fuel 0 = [] := by
  cases fuel <;> rfl

theorem natToDigitsRev_getLast (fuel : Nat) : ∀ n, 1 ≤ n → n ≤ fuel →
    ∃ d, (natToDigitsRev fuel n).getLast? = some d ∧ d ≠ 0 ∧ d < 10 := by
  induction fuel with
  | zero => intro n h1 hf; omega
  | succ f ih =>
    intro n h1 hf
    obtain ⟨m, rfl⟩ : ∃ m, n = m + 1 := ⟨n - 1, by omega⟩
    rw [natToDigitsRev]
    by_cases hlt : m + 1 < 10
    · have hdiv : (m + 1) / 10 = 0 := Nat.div_eq_of_lt hlt
      rw [hdiv, natToDigitsRev_zero]
      exact ⟨(m + 1) % 10, by simp, by omega, by omega⟩
    · have h10 : 10 ≤ m + 1 := by omega
      have hd1 : 1 ≤ (m + 1) / 10 := (Nat.one_le_div_iff (by norm_num)).mpr h10
      have hdf : (m + 1) / 10 ≤ f := by
        have := Nat.div_lt_self (show 0 < m + 1 by omega) (show 1 < 10 by norm_num)
        omega
      obtain ⟨d, hd, hdn, hdlt⟩ := ih ((m + 1) / 10) hd1 hdf
      refine ⟨d, ?_, hdn, hdlt⟩
      cases hl : natToDigitsRev f ((m + 1) / 10) with
      | nil => rw [hl] at hd; simp at hd
      | cons b t =>
        rw [hl] at hd
        rw [List.getLast?_cons_cons]
        exact hd

theorem natToDigitsRev_length_le (k : Nat) : ∀ fuel n, n ≤ fuel → n < 10 ^ k →
    (natToDigitsRev fuel n).length ≤ k := by
  induction k with
  | zero =>
    intro fuel n hf hk
    have : n = 0 := by omega
    subst this
    rw [natToDigitsRev_zero]
    simp
  | succ k ih =>
    intro fuel n hf hk
    rcases n with _ | m
    · rw [natToDigitsRev_zero]; simp
    rcases fuel with _ | f
    · omega
    rw [natToDigitsRev]
    simp only [List.length_cons]
    have hdf : (m + 1) / 10 ≤ f := by
      have := Nat.div_lt_self (show 0 < m + 1 by omega) (show 1 < 10 by norm_num)
      omega
    have hdk : (m + 1) / 10 < 10 ^ k := by
      rw [Nat.div_lt_iff_lt_mul (by norm_num)]
      calc m + 1 < 10 ^ (k + 1) := hk
        _ = 10 ^ k * 10 := by ring
    have := ih f ((m + 1) / 10) hdf hdk
    omega

theorem natToDigitsRev_le_length (k : Nat) : ∀ fuel n, n ≤ fuel → 10 ^ k ≤ n →
    k + 1 ≤ (natToDigitsRev fuel n).length := by
  induction k with
  | zero =>
    intro fuel n hf hk
    rcases n with _ | m
    · simp at hk
    rcases fuel with _ | f
    · omega
    rw [natToDigitsRev]
    simp
  | succ k ih =>
    intro fuel n hf hk
    have hpow : 1 ≤ 10 ^ (k + 1) := Nat.one_le_pow (k + 1) 10 (by norm_num)
    rcases n with _ | m
    · omega
    rcases fuel with _ | f
    · omega
    rw [natToDigitsRev]
    simp only [List.length_cons]
    have hd1 : 10 ^ k ≤ (m + 1) / 10 := by
      rw [Nat.le_div_iff_mul_le (by norm_num)]
      calc 10 ^ k * 10 = 10 ^ (k + 1) := by ring
        _ ≤ m + 1 := hk
    have hdf : (m + 1) / 10 ≤ f := by
      have := Nat.div_lt_self (show 0 < m + 1 by omega) (show 1 < 10 by norm_num)
      omega
    have := ih f ((m + 1) / 10) hdf hd1
    omega

theorem digitChar_ne_zero (d : Nat) (hlt : d < 10) (hne : d ≠ 0) : digitChar d ≠ '0' := by
  interval_cases d
  · exact absurd rfl hne
  all_goals decide

/-- A number drawn by `random.randint(100000, 999999)` renders as exactly six
decimal digits whose first digit is not zero. -/
theorem natToString_six_digits (n : Nat) (h1 : randintLo ≤ n) (h2 : n ≤ randintHi) :
    (natToString n).length = 6 ∧ (natToString n).data.head? ≠ some '0' := by
  rw [randintLo] at h1
  rw [randintHi] at h2
  have hn0 : n ≠ 0 := by omega
  rw [natToString, if_neg hn0]
  constructor
  · have hle : (natToDigitsRev n n).length ≤ 6 :=
      natToDigitsRev_length_le 6 n n le_rfl (by norm_num; omega)
    have hge : 5 + 1 ≤ (natToDigitsRev n n).length :=
      natToDigitsRev_le_length 5 n n le_rfl (by norm_num; omega)
    show ((natToDigitsRev n n).reverse.map digitChar).length = 6
    rw [List.length_map, List.length_reverse]
    omega
  · obtain ⟨d, hd, hdn, hdlt⟩ := natToDigitsRev_getLast n n (by omega) le_rfl
    have hhead : ((natToDigitsRev n n).reverse.map digitChar).head? = some (digitChar d) := by
      rw [List.head?_map, List.head?_reverse, hd]
      rfl
    show ((natToDigitsRev n n).reverse.map digitChar).head? ≠ some '0'
    rw [hhead]
    intro hc
    exact digitChar_ne_zero d hdlt hdn (Option.some.inj hc)

/-- Counterexample for C3: the code string `"000000"` — and with it any code
with a leading zero — can never be produced by `request_otp`, because
`random.randint(100000, 999999)` never draws below 100000 and Python's
string conversion emits no leading zeros. -/
theorem request_otp_full_range_counterexample :
    ¬ ∃ n, randintLo ≤ n ∧ n ≤ randintHi ∧
      (request_otp "user@example.com" n emptyDb).1.code = "000000" := by
  rintro ⟨n, h1, h2, hcode⟩
  have hcode' : natToString n = "000000" := hcode
  have hhead := (natToString_six_digits n h1 h2).2
  rw [hcode'] at hhead
  exact hhead (by decide)

/-- C3 (amended): `request_otp` draws a number uniformly from
`[100000, 999999]`, persists exactly one new OTP record carrying the email,
the code and the insertion timestamp, and returns that code to the caller with
no other side effect; the code is always six decimal digits with a nonzero
leading digit, so the strings `"000000"`–`"099999"` are never produced. -/
theorem request_otp_generates_code (email : String) (n : Nat) (s : DbState)
    (h1 : randintLo ≤ n) (h2 : n ≤ randintHi) :
    request_otp email n s =
      ({ sent := true, code := natToString n },
       { s with
         otps := s.otps ++
                 [{ id := s.counter, created_at := s.counter,
                    email := email, code := natToString n }],
         counter := s.counter + 1 }) ∧
    (natToString n).length = 6 ∧
    (natToString n).data.head? ≠ some '0' :=
  ⟨rfl, natToString_six_digits n h1 h2⟩

/-- Witness for C3 (amended): the draw 123456 yields the code `"123456"`,
stored once and returned. -/
theorem request_otp_generates_code_witness :
    request_otp "u@x.io" 123456 emptyDb =
      ({ sent := true, code := "123456" },
       { emptyDb with
         otps := [{ id := 0, created_at := 0, email := "u@x.io", code := "123456" }],
         counter := 1 }) ∧
    ("123456" : String).length = 6 ∧
    ("123456" : String).data.head? ≠ some '0' := by
  have h := request_otp_generates_code "u@x.io" 123456 emptyDb (by decide) (by decide)
  have hs : natToString 123456 = "123456" := by decide
  rw [hs] at h
  simpa using h

end DatingApp
